import Mathlib

/-!
# Verification of the portfolio-recommendation service

Shallow embedding of the core data-handling code of the repository:

* `services/portfolio_service.py` — the recommendation engine
  (`PortfolioService._mock_generate_portfolio`, `_ai_generate_portfolio`,
  `generate_portfolio_recommendation`);
* `app/services/mock_data_service.py` — the mock data loaders and the
  youth-policy age filter;
* `app/services/file_preprocessor.py` — the file-based normalizers;
* `app/services/msa_client.py` — the gateway-side record converters;
* `app/api/portfolio.py` — the portfolio analyzer endpoint.

Python numbers are modelled by `Rat` (for floats) and `Int` (for ints);
Python dictionaries of unknown shape are modelled by the `PyVal` type below;
Python code that can raise is modelled in `Except String`.
-/

set_option autoImplicit false

namespace LLMTest

/-! ## Part 1: the recommendation engine (`services/portfolio_service.py`)

The engine receives already-converted dictionaries; the keys it reads
(`total_assets`, `risk_tolerance`, `interest_rate`, ...) are modelled as
optional typed fields, and `dict.get(key, default)` as `Option.getD`. -/

/-- Profile dictionary as read by `_mock_generate_portfolio`:
`user_profile.get('total_assets', 10000000)` and
`user_profile.get('risk_tolerance', 5)`. -/
structure UserProfileDict where
  total_assets : Option Rat
  risk_tolerance : Option Int
  deriving Repr, DecidableEq

/-- Product dictionary as read by `_mock_generate_portfolio`
(`product.get("id", ...)`, `product.get("interest_rate", ...)`, ...). -/
structure ProductDict where
  id : Option Int
  product_name : Option String
  bank_name : Option String
  product_type : Option String
  interest_rate : Option Rat
  risk_level : Option Rat
  deriving Repr, DecidableEq

/-- Policy dictionary as read by `_mock_generate_portfolio`
(`policy.get("policy_name", "청년정책")`). -/
structure PolicyDict where
  policy_name : Option String
  deriving Repr, DecidableEq

/-- One entry of `portfolio_items` built by `_mock_generate_portfolio`. -/
structure PortfolioItemRec where
  product_id : Int
  product_name : String
  bank_name : String
  product_type : String
  allocation_percentage : Rat
  investment_amount : Rat
  expected_return : Rat
  risk_level : Rat
  deriving Repr, DecidableEq

/-- The dictionary returned by `_mock_generate_portfolio` /
`generate_portfolio_recommendation`. -/
structure Recommendation where
  total_investment_amount : Rat
  portfolio_items : List PortfolioItemRec
  expected_total_return : Rat
  total_risk_score : Rat
  recommendation_reason : String
  confidence_score : Rat
  youth_policy_benefits : List String
  deriving Repr, DecidableEq

/-- Model of `PortfolioService._mock_generate_portfolio`
(`services/portfolio_service.py`, lines 174–248).

Builds at most three `portfolio_items` — the first product at 40 %, the
second (if present) at 30 %, the third (if present) at 30 % — computes
`expected_total_return` and `total_risk_score` as percentage-weighted sums
over the built items, and returns a fixed `confidence_score` of `0.85`. -/
def mock_generate_portfolio (user_profile : UserProfileDict)
    (available_products : List ProductDict) (youth_policies : List PolicyDict) :
    Recommendation :=
  let total_assets : Rat := user_profile.total_assets.getD 10000000
  let risk_tolerance : Int := user_profile.risk_tolerance.getD 5
  let portfolio_items : List PortfolioItemRec :=
    match available_products with
    | [] => []
    | product1 :: rest1 =>
      let item1 : PortfolioItemRec :=
        { product_id := product1.id.getD 1
          product_name := product1.product_name.getD "정기예금"
          bank_name := product1.bank_name.getD "은행"
          product_type := product1.product_type.getD "예금"
          allocation_percentage := 40
          investment_amount := total_assets * (0.4 : Rat)
          expected_return := product1.interest_rate.getD 3
          risk_level := product1.risk_level.getD 2 }
      match rest1 with
      | [] => [item1]
      | product2 :: rest2 =>
        let item2 : PortfolioItemRec :=
          { product_id := product2.id.getD 2
            product_name := product2.product_name.getD "적금"
            bank_name := product2.bank_name.getD "은행"
            product_type := product2.product_type.getD "적금"
            allocation_percentage := 30
            investment_amount := total_assets * (0.3 : Rat)
            expected_return := product2.interest_rate.getD (3.5 : Rat)
            risk_level := product2.risk_level.getD 2 }
        match rest2 with
        | [] => [item1, item2]
        | product3 :: _ =>
          let item3 : PortfolioItemRec :=
            { product_id := product3.id.getD 3
              product_name := product3.product_name.getD "펀드"
              bank_name := product3.bank_name.getD "은행"
              product_type := product3.product_type.getD "펀드"
              allocation_percentage := 30
              investment_amount := total_assets * (0.3 : Rat)
              expected_return := product3.interest_rate.getD 5
              risk_level := product3.risk_level.getD 3 }
          [item1, item2, item3]
  { total_investment_amount := total_assets
    portfolio_items := portfolio_items
    expected_total_return :=
      (portfolio_items.map
        (fun item => item.expected_return * item.allocation_percentage / 100)).sum
    total_risk_score :=
      (portfolio_items.map
        (fun item => item.risk_level * item.allocation_percentage / 100)).sum
    recommendation_reason :=
      s!"사용자의 리스크 허용도({risk_tolerance}/10)에 맞춘 분산투자 포트폴리오입니다."
    confidence_score := (0.85 : Rat)
    youth_policy_benefits :=
      (youth_policies.take 2).map (fun policy => policy.policy_name.getD "청년정책") }

/-- Model of `PortfolioService._ai_generate_portfolio`
(`services/portfolio_service.py`, lines 109–172).

The Gemini call and `json.loads` of its text are modelled by an oracle
argument `ai_response`: `Except.ok r` when the model call succeeded and its
text parsed into `r`, `Except.error e` for a non-JSON response or any call
error.  The whole body sits in a `try`/`except` whose handler returns
`_mock_generate_portfolio` on the same inputs, so the function is total. -/
def ai_generate_portfolio (ai_response : Except String Recommendation)
    (user_profile : UserProfileDict) (available_products : List ProductDict)
    (youth_policies : List PolicyDict) : Recommendation :=
  match ai_response with
  | .ok recommendation => recommendation
  | .error _ => mock_generate_portfolio user_profile available_products youth_policies

/-- Model of `PortfolioService.generate_portfolio_recommendation`
(`services/portfolio_service.py`, lines 87–107).

Dispatches on `self.use_mock`; the surrounding `try`/`except ... raise`
re-raises whatever the selected strategy raises, which in this embedding is
nothing, so the result is always `Except.ok`. -/
def generate_portfolio_recommendation (use_mock : Bool)
    (ai_response : Except String Recommendation) (user_profile : UserProfileDict)
    (available_products : List ProductDict) (youth_policies : List PolicyDict) :
    Except String Recommendation :=
  if use_mock then
    .ok (mock_generate_portfolio user_profile available_products youth_policies)
  else
    .ok (ai_generate_portfolio ai_response user_profile available_products youth_policies)

/-- Sum of the `allocation_percentage` fields of a recommendation. -/
def allocationSum (r : Recommendation) : Rat :=
  (r.portfolio_items.map (fun item => item.allocation_percentage)).sum

/-- A profile used in counterexamples: `{'total_assets': 10000000,
'risk_tolerance': 6}`. -/
def scenarioProfile : UserProfileDict :=
  { total_assets := some 10000000, risk_tolerance := some 6 }

/-- A single bare product, used in counterexamples. -/
def soloProduct : ProductDict :=
  { id := some 1, product_name := some "정기예금", bank_name := some "국민은행"
    product_type := some "DEPOSIT", interest_rate := some (3.5 : Rat)
    risk_level := some 1 }

/-- The three products of spec Scenario A: rates `[3.5, 4.0, 7.0]`,
risk levels `[1, 1, 4]`. -/
def scenarioProducts : List ProductDict :=
  [ { id := some 1, product_name := some "정기예금", bank_name := some "국민은행"
      product_type := some "DEPOSIT", interest_rate := some (3.5 : Rat)
      risk_level := some 1 }
  , { id := some 2, product_name := some "정기적금", bank_name := some "신한은행"
      product_type := some "SAVINGS", interest_rate := some 4
      risk_level := some 1 }
  , { id := some 3, product_name := some "주식형펀드", bank_name := some "우리은행"
      product_type := some "FUND", interest_rate := some 7
      risk_level := some 4 } ]

/-! ## Part 2: Python values, truthiness and coercion

The normalizers receive JSON payloads of unknown shape.  `PyVal` models the
Python values a `json.load` can produce (plus `None`); `truthy` models
Python truthiness; `pyInt`/`pyFloat` model the `int(...)`/`float(...)`
coercions, which raise on non-numeric strings and on values of
non-coercible type. -/

/-- A Python value as produced by `json.load` (or `None`). -/
inductive PyVal where
  | none
  | vbool (b : Bool)
  | vint (n : Int)
  | vfloat (q : Rat)
  | vstr (s : String)
  | vlist (elems : List PyVal)
  | vdict (entries : List (String × PyVal))

/-- Python truthiness: `None`, `False`, `0`, `0.0`, `""`, `[]`, `{}` are
falsy, everything else truthy. -/
def truthy : PyVal → Bool
  | .none => false
  | .vbool b => b
  | .vint n => n != 0
  | .vfloat q => q != 0
  | .vstr s => !s.isEmpty
  | .vlist l => !l.isEmpty
  | .vdict d => !d.isEmpty

/-- Model of `d.get(key)`: the value bound to `key`, `None` when the key is absent. -/
def dget : List (String × PyVal) → String → PyVal
  | [], _ => .none
  | (k, v) :: rest, key => if k = key then v else dget rest key

/-- Whether `key` is bound in the dictionary (`key in d`). -/
def containsKey (d : List (String × PyVal)) (key : String) : Bool :=
  d.any (fun e => e.1 = key)

/-- Model of `d.get(key, dflt)`: the bound value when the key is present (even when
that value is `None`), otherwise the default. -/
def dgetD (d : List (String × PyVal)) (key : String) (dflt : PyVal) : PyVal :=
  if containsKey d key then dget d key else dflt

/-- Python `a or b`: `a` when truthy, else `b`. -/
def pyOr (a b : PyVal) : PyVal :=
  if truthy a then a else b

/-- Model of `v.get(key)` on an arbitrary value: raises `AttributeError` unless `v`
is a dictionary. -/
def pyGet (v : PyVal) (key : String) : Except String PyVal :=
  match v with
  | .vdict d => .ok (dget d key)
  | _ => .error "AttributeError: no attribute get"

/-- View a value as a dictionary; raises (`AttributeError` on the first
`.get`) otherwise. -/
def asDict : PyVal → Except String (List (String × PyVal))
  | .vdict d => .ok d
  | _ => .error "AttributeError: no attribute get"

/-- Model of `isinstance(v, list)`. -/
def isListV : PyVal → Bool
  | .vlist _ => true
  | _ => false

/-- The elements of a list value (`[]` for anything else; used only where
the source has already established the value is a list or `None`). -/
def asList : PyVal → List PyVal
  | .vlist l => l
  | _ => []

/-- A non-empty all-digit character list read as a natural number. -/
def digitsToNat (cs : List Char) : Option Nat :=
  if cs.isEmpty then Option.none
  else if cs.all Char.isDigit then
    some (cs.foldl (fun acc c => acc * 10 + (c.toNat - 48)) 0)
  else Option.none

/-- Split a character list at its first `'.'`. -/
def breakAtDot : List Char → List Char × Option (List Char)
  | [] => ([], Option.none)
  | c :: rest =>
    if c = '.' then ([], some rest)
    else
      let (a, b) := breakAtDot rest
      (c :: a, b)

/-- Base-10 integer-string parsing for `int(...)`: an optional sign
followed by digits.  (The model covers the plain-decimal subset of
Python's grammar; all inputs appearing in the development are either in
this subset or rejected by both.) -/
def strToInt (s : String) : Option Int :=
  match s.toList with
  | '-' :: rest => (digitsToNat rest).map (fun n => -(n : Int))
  | '+' :: rest => (digitsToNat rest).map (fun n => (n : Int))
  | cs => (digitsToNat cs).map (fun n => (n : Int))

/-- Decimal-string parsing for `float(...)`: an optional sign, digits, and
an optional all-digit fractional part. -/
def parseRat (s : String) : Option Rat :=
  let core := fun (cs : List Char) =>
    match breakAtDot cs with
    | (intPart, Option.none) => (digitsToNat intPart).map (fun n => (n : Rat))
    | (intPart, some fracPart) =>
      match digitsToNat intPart, digitsToNat fracPart with
      | some x, some y => some ((x : Rat) + (y : Rat) / ((10 : Rat) ^ fracPart.length))
      | _, _ => Option.none
  match s.toList with
  | '-' :: rest => (core rest).map (fun q => -q)
  | '+' :: rest => core rest
  | cs => core cs

/-- Python `int(v)`: identity on ints, truncation toward zero on floats,
`0`/`1` on booleans, base-10 parsing on strings (raising `ValueError` on
non-numeric text), `TypeError` on anything else. -/
def pyInt : PyVal → Except String Int
  | .vint n => .ok n
  | .vfloat q => .ok (q.num.tdiv (q.den : Int))
  | .vbool b => .ok (if b then 1 else 0)
  | .vstr s =>
    match strToInt s with
    | some n => .ok n
    | Option.none => .error ("invalid literal for int with base 10: " ++ s)
  | _ => .error "int TypeError"

/-- Python `float(v)`: identity on numbers, `0.0`/`1.0` on booleans,
decimal parsing on strings (raising `ValueError` on non-numeric text),
`TypeError` on anything else. -/
def pyFloat : PyVal → Except String Rat
  | .vint n => .ok (n : Rat)
  | .vfloat q => .ok q
  | .vbool b => .ok (if b then 1 else 0)
  | .vstr s =>
    match parseRat s with
    | some q => .ok q
    | Option.none => .error ("could not convert string to float: " ++ s)
  | _ => .error "float TypeError"

/-! ## Part 3: the schema normalizers

Three normalizers handle bank products and youth policies:
`MockDataService._load_bank_products_from_json` /
`._load_policies_from_json` (loose: alias chains, raw values kept),
`FilePreprocessor._normalize_bank` / `._normalize_policy` (alias chains
plus `int`/`float` coercion), and `MSAClient._convert_bank_products` /
`._convert_youth_policies` (single key with `.get` default plus
coercion). -/

/-- Canonical policy record built by the loop of
`MockDataService._load_policies_from_json`
(`app/services/mock_data_service.py`, lines 119–131).  String-ish fields
are kept as the raw values the `or`-chains produce. -/
structure MockPolicy where
  policyId : PyVal
  policyName : PyVal
  targetAgeMin : Int
  targetAgeMax : Int
  benefitAmount : Rat
  requirements : PyVal
  applicationPeriod : PyVal
  policyType : PyVal
  description : PyVal

/-- One iteration of the normalization loop of
`MockDataService._load_policies_from_json`: alias chains with falsy-skip
(`p.get("targetAgeMin") or p.get("sprtTrgtMinAge") or 0`), `int`/`float`
coercion on the numeric fields (these evaluate first and can raise). -/
def mds_normalize_policy (pv : PyVal) : Except String MockPolicy := do
  let p ← asDict pv
  let targetAgeMin ← pyInt (pyOr (dget p "targetAgeMin") (pyOr (dget p "sprtTrgtMinAge") (.vint 0)))
  let targetAgeMax ← pyInt (pyOr (dget p "targetAgeMax") (pyOr (dget p "sprtTrgtMaxAge") (.vint 0)))
  let benefitAmount ← pyFloat (pyOr (dget p "benefitAmount") (pyOr (dget p "bnftAmt") (.vint 0)))
  .ok
    { policyId := pyOr (dget p "policyId") (pyOr (dget p "plcyNo") (dgetD p "id" (.vstr "YOUTH_UNKNOWN")))
      policyName := pyOr (dget p "policyName") (pyOr (dget p "plcyNm") (dgetD p "name" (.vstr "정책")))
      targetAgeMin := targetAgeMin
      targetAgeMax := targetAgeMax
      benefitAmount := benefitAmount
      requirements := pyOr (dget p "requirements") (pyOr (dget p "addAplyQlfcCndCn") (.vstr ""))
      applicationPeriod := pyOr (dget p "applicationPeriod") (pyOr (dget p "aplyYmd") (.vstr ""))
      policyType := pyOr (dget p "policyType") (pyOr (dget p "lclsfNm") (.vstr ""))
      description := pyOr (dget p "description") (pyOr (dget p "plcyExplnCn") (.vstr "")) }

/-- Model of `MockDataService.get_youth_policies`
(`app/services/mock_data_service.py`, lines 319–329): the age filter runs
only under `if age:` — i.e. only when `age` is neither `None` nor `0` — and
is the inclusive-range test `targetAgeMin <= age <= targetAgeMax`. -/
def get_youth_policies (policies : List MockPolicy) (age : Option Int) : List MockPolicy :=
  match age with
  | Option.none => policies
  | some a =>
    if a = 0 then policies
    else policies.filter (fun p => decide (p.targetAgeMin ≤ a) && decide (a ≤ p.targetAgeMax))

/-- Canonical policy record built by `FilePreprocessor._normalize_policy`
(`app/services/file_preprocessor.py`, lines 83–94). -/
structure FPPolicy where
  policy_code : PyVal
  policy_name : PyVal
  target_age_min : Int
  target_age_max : Int
  benefit_amount : Rat
  requirements : PyVal
  application_period : PyVal
  policy_type : PyVal
  description : PyVal

/-- Model of `FilePreprocessor._normalize_policy`: same alias chains as the mock
loader but with `""` defaults for the identifier fields; the `int`/`float`
coercions can raise and nothing catches them in `preprocess_policy`. -/
def normalize_policy (pv : PyVal) : Except String FPPolicy := do
  let p ← asDict pv
  let target_age_min ← pyInt (pyOr (dget p "targetAgeMin") (pyOr (dget p "sprtTrgtMinAge") (.vint 0)))
  let target_age_max ← pyInt (pyOr (dget p "targetAgeMax") (pyOr (dget p "sprtTrgtMaxAge") (.vint 0)))
  let benefit_amount ← pyFloat (pyOr (dget p "benefitAmount") (pyOr (dget p "bnftAmt") (.vint 0)))
  .ok
    { policy_code := pyOr (dget p "policyId") (pyOr (dget p "plcyNo") (dgetD p "id" (.vstr "")))
      policy_name := pyOr (dget p "policyName") (pyOr (dget p "plcyNm") (dgetD p "name" (.vstr "")))
      target_age_min := target_age_min
      target_age_max := target_age_max
      benefit_amount := benefit_amount
      requirements := pyOr (dget p "requirements") (pyOr (dget p "addAplyQlfcCndCn") (.vstr ""))
      application_period := pyOr (dget p "applicationPeriod") (pyOr (dget p "aplyYmd") (.vstr ""))
      policy_type := pyOr (dget p "policyType") (pyOr (dget p "lclsfNm") (.vstr ""))
      description := pyOr (dget p "description") (pyOr (dget p "plcyExplnCn") (.vstr "")) }

/-- Canonical bank-product record built by `FilePreprocessor._normalize_bank`
(`app/services/file_preprocessor.py`, lines 68–81). -/
structure FPBankProduct where
  product_code : PyVal
  product_name : PyVal
  product_type : PyVal
  bank_name : PyVal
  interest_rate : Rat
  min_amount : Rat
  max_amount : Rat
  term_months : Int
  risk_level : Int
  features : PyVal
  target_customer : PyVal

/-- Model of `FilePreprocessor._normalize_bank`: alias chains with falsy-skip;
`risk_level` is `int(p.get("riskLevel") or p.get("risk") or 1)` — the
absent-field default here is `1`. -/
def normalize_bank (pv : PyVal) : Except String FPBankProduct := do
  let p ← asDict pv
  let interest_rate ← pyFloat (pyOr (dget p "interestRate") (pyOr (dget p "rate") (.vint 0)))
  let min_amount ← pyFloat (pyOr (dget p "minAmount") (pyOr (dget p "min") (.vint 0)))
  let max_amount ← pyFloat (pyOr (dget p "maxAmount") (pyOr (dget p "max") (.vint 0)))
  let term_months ← pyInt (pyOr (dget p "termMonths") (pyOr (dget p "term") (.vint 0)))
  let risk_level ← pyInt (pyOr (dget p "riskLevel") (pyOr (dget p "risk") (.vint 1)))
  .ok
    { product_code := pyOr (dget p "productId") (pyOr (dget p "id") (dgetD p "code" (.vstr "")))
      product_name := pyOr (dget p "productName") (pyOr (dget p "name") (dgetD p "title" (.vstr "")))
      product_type := pyOr (dget p "productType") (pyOr (dget p "type") (dgetD p "category" (.vstr "")))
      bank_name := pyOr (dget p "bankName") (pyOr (dget p "bank") (dgetD p "issuer" (.vstr "")))
      interest_rate := interest_rate
      min_amount := min_amount
      max_amount := max_amount
      term_months := term_months
      risk_level := risk_level
      features := pyOr (dget p "features") (.vlist [])
      target_customer := pyOr (dget p "targetCustomer") (pyOr (dget p "target") (.vstr "")) }

/-- Bank-product record built by the normalization loop of
`MockDataService._load_bank_products_from_json`
(`app/services/mock_data_service.py`, lines 68–84).  No `int`/`float`
coercion happens there, so every field keeps the raw value its `or`-chain
produced. -/
structure MdsBankProduct where
  productId : PyVal
  productName : PyVal
  productType : PyVal
  bankCode : PyVal
  bankName : PyVal
  interestRate : PyVal
  minAmount : PyVal
  maxAmount : PyVal
  termMonths : PyVal
  riskLevel : PyVal
  description : PyVal
  features : PyVal
  targetCustomer : PyVal

/-- One iteration of the normalization loop of
`MockDataService._load_bank_products_from_json`: pure alias chains with
falsy-skip; `interestRate` defaults to `3.0` and `riskLevel` to `2` when
every alias is absent or falsy. -/
def mds_normalize_bank (pv : PyVal) : Except String MdsBankProduct := do
  let p ← asDict pv
  .ok
    { productId := pyOr (dget p "productId") (pyOr (dget p "id") (pyOr (dget p "code") (dgetD p "prodId" (.vstr "BANK_UNKNOWN"))))
      productName := pyOr (dget p "productName") (pyOr (dget p "name") (dgetD p "title" (.vstr "상품")))
      productType := pyOr (dget p "productType") (pyOr (dget p "type") (dgetD p "category" (.vstr "DEPOSIT")))
      bankCode := pyOr (dget p "bankCode") (pyOr (dget p "bank_code") (dgetD p "bankId" (.vstr "000")))
      bankName := pyOr (dget p "bankName") (pyOr (dget p "bank") (dgetD p "issuer" (.vstr "은행")))
      interestRate := pyOr (dget p "interestRate") (pyOr (dget p "rate") (pyOr (dget p "yield") (.vfloat 3)))
      minAmount := pyOr (dget p "minAmount") (pyOr (dget p "min") (.vint 0))
      maxAmount := pyOr (dget p "maxAmount") (pyOr (dget p "max") (.vint 0))
      termMonths := pyOr (dget p "termMonths") (pyOr (dget p "term") (.vint 0))
      riskLevel := pyOr (dget p "riskLevel") (pyOr (dget p "risk") (.vint 2))
      description := pyOr (dget p "description") (pyOr (dget p "desc") (.vstr ""))
      features := pyOr (dget p "features") (.vlist [])
      targetCustomer := pyOr (dget p "targetCustomer") (pyOr (dget p "target") (.vstr "일반고객")) }

/-- Converted bank-product record built by `MSAClient._convert_bank_products`
(`app/services/msa_client.py`, lines 58–81). -/
structure MsaBankProduct where
  product_code : PyVal
  product_name : PyVal
  product_type : PyVal
  bank_name : PyVal
  bank_code : PyVal
  interest_rate : Rat
  min_amount : Rat
  max_amount : Rat
  term_months : Int
  risk_level : Int
  description : PyVal
  features : PyVal
  target_customer : PyVal
  raw_data : PyVal

/-- One iteration of `MSAClient._convert_bank_products`: single-key
`.get(key, default)` resolution (no falsy-skip), `int`/`float` coercion on
the numeric fields; `risk_level` is `int(product.get("riskLevel", 1))` —
default `1` when the key is absent. -/
def convert_bank_product (pv : PyVal) : Except String MsaBankProduct := do
  let p ← asDict pv
  let interest_rate ← pyFloat (dgetD p "interestRate" (.vint 0))
  let min_amount ← pyFloat (dgetD p "minAmount" (.vint 0))
  let max_amount ← pyFloat (dgetD p "maxAmount" (.vint 0))
  let term_months ← pyInt (dgetD p "termMonths" (.vint 0))
  let risk_level ← pyInt (dgetD p "riskLevel" (.vint 1))
  .ok
    { product_code := dgetD p "productId" (.vstr "")
      product_name := dgetD p "productName" (.vstr "")
      product_type := dgetD p "productType" (.vstr "")
      bank_name := dgetD p "bankName" (.vstr "")
      bank_code := dgetD p "bankCode" (.vstr "")
      interest_rate := interest_rate
      min_amount := min_amount
      max_amount := max_amount
      term_months := term_months
      risk_level := risk_level
      description := dgetD p "description" (.vstr "")
      features := dgetD p "features" (.vlist [])
      target_customer := dgetD p "targetCustomer" (.vstr "")
      raw_data := pv }

/-- Converted youth-policy record built by `MSAClient._convert_youth_policies`
(`app/services/msa_client.py`, lines 115–134). -/
structure MsaPolicy where
  policy_code : PyVal
  policy_name : PyVal
  target_age_min : Int
  target_age_max : Int
  benefit_amount : Rat
  requirements : PyVal
  application_period : PyVal
  policy_type : PyVal
  description : PyVal
  raw_data : PyVal

/-- One iteration of `MSAClient._convert_youth_policies`: single-key
`.get(key, default)` resolution with `int`/`float` coercion on the numeric
fields. -/
def convert_youth_policy (pv : PyVal) : Except String MsaPolicy := do
  let p ← asDict pv
  let target_age_min ← pyInt (dgetD p "targetAgeMin" (.vint 0))
  let target_age_max ← pyInt (dgetD p "targetAgeMax" (.vint 0))
  let benefit_amount ← pyFloat (dgetD p "benefitAmount" (.vint 0))
  .ok
    { policy_code := dgetD p "policyId" (.vstr "")
      policy_name := dgetD p "policyName" (.vstr "")
      target_age_min := target_age_min
      target_age_max := target_age_max
      benefit_amount := benefit_amount
      requirements := dgetD p "requirements" (.vstr "")
      application_period := dgetD p "applicationPeriod" (.vstr "")
      policy_type := dgetD p "policyType" (.vstr "")
      description := dgetD p "description" (.vstr "")
      raw_data := pv }

/-- The dictionary a `MockPolicy` literally is in the Python source: the
normalized entries of `MockDataService` are plain dictionaries with exactly
these keys; `MockPolicy` is their typed view. -/
def MockPolicy.toDict (p : MockPolicy) : PyVal :=
  .vdict
    [ ("policyId", p.policyId), ("policyName", p.policyName)
    , ("targetAgeMin", .vint p.targetAgeMin), ("targetAgeMax", .vint p.targetAgeMax)
    , ("benefitAmount", .vfloat p.benefitAmount), ("requirements", p.requirements)
    , ("applicationPeriod", p.applicationPeriod), ("policyType", p.policyType)
    , ("description", p.description) ]

/-- Model of `MSAClient.get_youth_policies` in mock mode
(`app/services/msa_client.py`, lines 83–113): fetch from the mock service
(which applies the truthy-guarded age filter) and convert each record. -/
def msa_get_youth_policies (policies : List MockPolicy) (age : Option Int) :
    Except String (List MsaPolicy) :=
  ((get_youth_policies policies age).map MockPolicy.toDict).mapM convert_youth_policy

/-- A value is a number (or absent): the class of field values on which the
`int`/`float` coercions of the normalizers cannot raise. -/
def numericOrAbsent : PyVal → Bool
  | .none => true
  | .vbool _ => true
  | .vint _ => true
  | .vfloat _ => true
  | _ => false

/-! ## Part 4: container resolution (the payload loaders) -/

/-- Character-list substring test, for Python's `key in someString`. -/
def charsContain (pat : List Char) : List Char → Bool
  | [] => pat.isEmpty
  | c :: rest => pat.isPrefixOf (c :: rest) || charsContain pat rest

/-- Python `k in v`: key membership for dictionaries, element membership
for lists (string elements only can compare equal to a string key),
substring test for strings, `TypeError` otherwise. -/
def pyIn (k : String) (v : PyVal) : Except String Bool :=
  match v with
  | .vdict d => .ok (containsKey d k)
  | .vlist l => .ok (l.any (fun e => match e with | .vstr s => s = k | _ => false))
  | .vstr s => .ok (charsContain k.toList s.toList)
  | _ => .error "TypeError: argument is not iterable"

/-- Python `any(k in sample for k in keys)`: short-circuit, raising as soon
as one membership test raises. -/
def pyAnyKey (keys : List String) (sample : PyVal) : Except String Bool :=
  match keys with
  | [] => .ok false
  | k :: rest => do
    let b ← pyIn k sample
    if b then .ok true else pyAnyKey rest sample

/-- The entity-specific keys probed by
`MockDataService._load_bank_products_from_json` (line 58) to recognise a
product record. -/
def productKeys : List String :=
  ["productId", "productName", "bankName", "interestRate", "productType"]

/-- The candidate-scanning loop of
`MockDataService._load_bank_products_from_json` (lines 53–60): the first
candidate that is a non-empty list whose first element carries at least one
product-specific key wins; candidates failing the key probe are skipped. -/
def first_product_list : List PyVal → Except String (Option (List PyVal))
  | [] => .ok Option.none
  | v :: rest =>
    match v with
    | .vlist (x :: xs) => do
      let b ← pyAnyKey productKeys x
      if b then .ok (some (x :: xs)) else first_product_list rest
    | _ => first_product_list rest

/-- Model of `MockDataService._get_mock_bank_products`
(`app/services/mock_data_service.py`, lines 140–218): the five built-in
default products. -/
def mock_bank_products : List MdsBankProduct :=
  [ { productId := .vstr "BANK001", productName := .vstr "정기예금"
      productType := .vstr "DEPOSIT", bankCode := .vstr "001"
      bankName := .vstr "국민은행", interestRate := .vfloat (3.5 : Rat)
      minAmount := .vint 1000000, maxAmount := .vint 100000000
      termMonths := .vint 12, riskLevel := .vint 1
      description := .vstr "안전한 정기예금 상품"
      features := .vlist [.vstr "안전성", .vstr "정기적 수익"]
      targetCustomer := .vstr "일반고객" }
  , { productId := .vstr "BANK002", productName := .vstr "정기적금"
      productType := .vstr "SAVINGS", bankCode := .vstr "002"
      bankName := .vstr "신한은행", interestRate := .vfloat 4
      minAmount := .vint 500000, maxAmount := .vint 50000000
      termMonths := .vint 24, riskLevel := .vint 1
      description := .vstr "정기적금 상품"
      features := .vlist [.vstr "안전성", .vstr "정기적 저축"]
      targetCustomer := .vstr "일반고객" }
  , { productId := .vstr "BANK003", productName := .vstr "청년도약계좌"
      productType := .vstr "YOUTH_ACCOUNT", bankCode := .vstr "001"
      bankName := .vstr "국민은행", interestRate := .vfloat 5
      minAmount := .vint 100000, maxAmount := .vint 10000000
      termMonths := .vint 36, riskLevel := .vint 2
      description := .vstr "청년을 위한 특별 상품"
      features := .vlist [.vstr "청년특혜", .vstr "높은 금리"]
      targetCustomer := .vstr "청년" }
  , { productId := .vstr "BANK004", productName := .vstr "주식형펀드"
      productType := .vstr "FUND", bankCode := .vstr "003"
      bankName := .vstr "우리은행", interestRate := .vfloat 7
      minAmount := .vint 1000000, maxAmount := .vint 1000000000
      termMonths := .vint 0, riskLevel := .vint 4
      description := .vstr "주식형 펀드 상품"
      features := .vlist [.vstr "높은 수익", .vstr "시장참여"]
      targetCustomer := .vstr "투자자" }
  , { productId := .vstr "BANK005", productName := .vstr "채권형펀드"
      productType := .vstr "BOND_FUND", bankCode := .vstr "004"
      bankName := .vstr "하나은행", interestRate := .vfloat (4.5 : Rat)
      minAmount := .vint 500000, maxAmount := .vint 500000000
      termMonths := .vint 0, riskLevel := .vint 2
      description := .vstr "채권형 펀드 상품"
      features := .vlist [.vstr "안정성", .vstr "중간수익"]
      targetCustomer := .vstr "보수적투자자" } ]

/-- The `try` body of `MockDataService._load_bank_products_from_json`
(`app/services/mock_data_service.py`, lines 41–87) on an already-loaded
payload: container resolution, the product-key probe, and the
normalization loop.  The source's early `return self._get_mock_bank_products()`
on a detected policy list is modelled as an error — the caller maps every
error to the same mock default, so the value is unchanged. -/
def load_bank_body (data : PyVal) : Except String (List MdsBankProduct) := do
  let products ←
    match data with
    | .vdict d => do
      let container := pyOr (dget d "result") data
      let candidates ← (["bankProducts", "products", "list", "items"].mapM (pyGet container))
      let pick ← first_product_list candidates
      match pick with
      | some lst => pure lst
      | Option.none => do
        let ypl ← pyGet container "youthPolicyList"
        if truthy ypl then throw "policy list in bank payload" else pure []
    | _ => pure []
  (products.take 200).mapM mds_normalize_bank

/-- Model of `MockDataService._load_bank_products_from_json` on an already-loaded
payload (`app/services/mock_data_service.py`, lines 32–91): falsy payloads,
payloads whose processing raises, payloads recognised as policy lists, and
payloads yielding no normalized product all fall back to the five built-in
mock products. -/
def load_bank_products_from_json (data : PyVal) : List MdsBankProduct :=
  if truthy data = false then mock_bank_products
  else
    match load_bank_body data with
    | .ok l => if l.isEmpty then mock_bank_products else l
    | .error _ => mock_bank_products

/-- Model of `FilePreprocessor.preprocess_bank`
(`app/services/file_preprocessor.py`, lines 31–51) on an already-loaded
payload: unwrap `result`, probe the four candidate container keys for the
first value that is a list, and — when none is found (or the found list is
empty) while `youthPolicyList` holds a list — return the empty list.
Otherwise normalize up to `limit` records; nothing catches a coercion
error. -/
def preprocess_bank (raw : PyVal) (limit : Nat) : Except String (List FPBankProduct) := do
  let r ← pyGet raw "result"
  let container := pyOr r raw
  let candidates ← (["bankProducts", "products", "list", "items"].mapM (pyGet container))
  let items := (candidates.find? isListV).getD PyVal.none
  let ypl ← pyGet container "youthPolicyList"
  if truthy items = false && isListV ypl then
    .ok []
  else
    ((asList items).take limit).mapM normalize_bank

/-- Model of `FilePreprocessor.preprocess_policy`
(`app/services/file_preprocessor.py`, lines 53–66) on an already-loaded
payload: same container resolution with policy-first candidate keys and an
empty-list default instead of the policy-detection branch. -/
def preprocess_policy (raw : PyVal) (limit : Nat) : Except String (List FPPolicy) := do
  let r ← pyGet raw "result"
  let container := pyOr r raw
  let candidates ← (["youthPolicyList", "policies", "list", "items"].mapM (pyGet container))
  let items := (candidates.find? isListV).getD (PyVal.vlist [])
  ((asList items).take limit).mapM normalize_policy

/-! ## Part 5: the portfolio analyzer (`app/api/portfolio.py`) -/

/-- A persisted `UserPortfolio` row as read by `analyze_user_portfolio`. -/
structure DbPortfolioItem where
  bank_product_id : Int
  investment_amount : Rat
  allocation_percentage : Rat
  deriving Repr, DecidableEq

/-- A persisted `BankProduct` row as read by `analyze_user_portfolio`. -/
structure DbBankProduct where
  interest_rate : Rat
  risk_level : Rat
  product_type : String
  deriving Repr, DecidableEq

/-- The `PortfolioAnalysis` response of `analyze_user_portfolio`. -/
structure PortfolioAnalysisRec where
  total_value : Rat
  total_return : Rat
  risk_score : Rat
  diversification_score : Rat
  sector_allocation : List (String × Rat)
  overall_risk : String
  diversification : String
  recommendations : List String
  deriving Repr, DecidableEq

/-- The sector-allocation update of the analyzer loop: add the percentage
to an existing sector entry, or append a new entry. -/
def updateSector : List (String × Rat) → String → Rat → List (String × Rat)
  | [], sector, v => [(sector, v)]
  | (k, x) :: rest, sector, v =>
    if k = sector then (k, x + v) :: rest else (k, x) :: updateSector rest sector v

/-- The aggregation loop of `analyze_user_portfolio`
(`app/api/portfolio.py`, lines 220–239): for each item, resolve its product
(`db.query(BankProduct).filter(...).first()`, modelled by `lookup`); when
resolved, accumulate `interest_rate/100 × investment_amount` into the
return, `risk_level × allocation_percentage/100` into the risk score, and
the percentage into the item's sector; unresolved items contribute
nothing. -/
def analyzeLoop (lookup : Int → Option DbBankProduct) :
    List DbPortfolioItem → Rat → Rat → List (String × Rat) →
    Rat × Rat × List (String × Rat)
  | [], total_return, risk_score, sector_allocation =>
    (total_return, risk_score, sector_allocation)
  | item :: rest, total_return, risk_score, sector_allocation =>
    match lookup item.bank_product_id with
    | some product =>
      analyzeLoop lookup rest
        (total_return + product.interest_rate / 100 * item.investment_amount)
        (risk_score + product.risk_level * item.allocation_percentage / 100)
        (updateSector sector_allocation product.product_type item.allocation_percentage)
    | Option.none => analyzeLoop lookup rest total_return risk_score sector_allocation

/-- Model of `analyze_user_portfolio` (`app/api/portfolio.py`, lines 202–266):
404 on an empty portfolio; otherwise `total_value` sums every item's
`investment_amount` (resolved or not), the loop aggregates the rest, and
`diversification_score = min(100, 20 × distinct sectors)`. -/
def analyze_user_portfolio (items : List DbPortfolioItem)
    (lookup : Int → Option DbBankProduct) : Except String PortfolioAnalysisRec :=
  if items.isEmpty then .error "포트폴리오가 없습니다"
  else
    let total_value := (items.map (fun item => item.investment_amount)).sum
    let res := analyzeLoop lookup items 0 0 []
    let total_return := res.1
    let risk_score := res.2.1
    let sector_allocation := res.2.2
    let diversification_score : Rat := ((min 100 (sector_allocation.length * 20) : Nat) : Rat)
    .ok
      { total_value := total_value
        total_return := total_return
        risk_score := risk_score
        diversification_score := diversification_score
        sector_allocation := sector_allocation
        overall_risk :=
          if risk_score < 2 then "낮음" else if risk_score < 4 then "보통" else "높음"
        diversification := if diversification_score > 60 then "양호" else "개선 필요"
        recommendations :=
          [ if diversification_score > 60 then "포트폴리오가 잘 분산되어 있습니다"
            else "더 많은 상품으로 분산투자를 고려해보세요"
          , if risk_score < 3 then "리스크 관리가 잘 되고 있습니다"
            else "리스크를 줄이는 상품을 고려해보세요" ] }

end LLMTest

namespace LLMTest

/-! ### Theorems for the recommendation engine -/

/-- C1 counterexample:  The claim says the fallback's allocation
percentages always sum to 100 ± 0.01, with renormalization when fewer than
three products are available.  On a one-product list the code emits a single
40 % item and never renormalizes: the sum is 40, outside the tolerance. -/
theorem c1_counterexample :
    allocationSum (mock_generate_portfolio scenarioProfile [soloProduct] []) = 40 ∧
      ¬ |allocationSum (mock_generate_portfolio scenarioProfile [soloProduct] []) - 100|
          ≤ (0.01 : Rat) := by
  constructor
  · norm_num [allocationSum, mock_generate_portfolio, scenarioProfile, soloProduct]
  · norm_num [allocationSum, mock_generate_portfolio, scenarioProfile, soloProduct, abs_le]

/-- C1 amended:  For any profile and policy list, the fallback's
allocation percentages sum to exactly 100 when at least three products are
available, but there is no renormalization below that: one product yields a
sum of 40 and two products a sum of 70 (zero products, zero sum). -/
theorem c1_allocation_sum (user_profile : UserProfileDict)
    (available_products : List ProductDict) (youth_policies : List PolicyDict) :
    allocationSum (mock_generate_portfolio user_profile available_products youth_policies) =
      match available_products with
      | [] => 0
      | [_] => 40
      | [_, _] => 70
      | _ :: _ :: _ :: _ => 100 := by
  match available_products with
  | [] => rfl
  | [_] => norm_num [mock_generate_portfolio, allocationSum]
  | [_, _] => norm_num [mock_generate_portfolio, allocationSum]
  | _ :: _ :: _ :: _ => norm_num [mock_generate_portfolio, allocationSum]

/-- C2:  When the AI path fails (non-JSON text or any call error,
modelled by `Except.error e`), `generate_portfolio_recommendation` returns
exactly the deterministic fallback's result for the same inputs, that result
carries `confidence_score = 0.85`, and no error is propagated (the result is
`Except.ok`). -/
theorem c2_ai_failure_falls_back (e : String) (user_profile : UserProfileDict)
    (available_products : List ProductDict) (youth_policies : List PolicyDict) :
    generate_portfolio_recommendation false (.error e) user_profile
        available_products youth_policies =
      .ok (mock_generate_portfolio user_profile available_products youth_policies) ∧
    (mock_generate_portfolio user_profile available_products
        youth_policies).confidence_score = (0.85 : Rat) := by
  exact ⟨rfl, rfl⟩

/-- C3:  Spec Scenario A: for the profile with assets 10 000 000 and the
three products with rates `[3.5, 4.0, 7.0]` and risk levels `[1, 1, 4]`, the
fallback produces investment amounts `[4 000 000, 3 000 000, 3 000 000]`,
`expected_total_return = 4.7` and `total_risk_score = 1.9`. -/
theorem c3_scenario_a :
    ((mock_generate_portfolio scenarioProfile scenarioProducts []).portfolio_items.map
        (fun item => item.investment_amount)) = [4000000, 3000000, 3000000] ∧
    (mock_generate_portfolio scenarioProfile scenarioProducts []).expected_total_return =
        (4.7 : Rat) ∧
    (mock_generate_portfolio scenarioProfile scenarioProducts []).total_risk_score =
        (1.9 : Rat) := by
  refine ⟨?_, ?_, ?_⟩ <;>
    norm_num [mock_generate_portfolio, scenarioProfile, scenarioProducts]

/-! ### Helper lemmas for the normalizers -/

/-- A key that is not in the dictionary resolves to `None`. -/
theorem dget_eq_none_of_not_containsKey (d : List (String × PyVal)) (k : String)
    (h : containsKey d k = false) : dget d k = .none := by
  induction d with
  | nil => rfl
  | cons e rest ih =>
    simp only [containsKey, List.any_cons, Bool.or_eq_false_iff,
      decide_eq_false_iff_not] at h
    have hrest : containsKey rest k = false := h.2
    simp [dget, h.1, ih hrest]

/-- A truthy numeric value coerces to an int. -/
theorem pyInt_ok_of_numeric (v : PyVal) (hv : numericOrAbsent v = true)
    (htv : truthy v = true) : ∃ n, pyInt v = .ok n := by
  cases v <;> simp_all [numericOrAbsent, truthy, pyInt]

/-- A truthy numeric value coerces to a float. -/
theorem pyFloat_ok_of_numeric (v : PyVal) (hv : numericOrAbsent v = true)
    (htv : truthy v = true) : ∃ q, pyFloat v = .ok q := by
  cases v <;> simp_all [numericOrAbsent, truthy, pyFloat]

/-- An `int(a or b or 0)` alias chain cannot raise when both alias values
are numbers or absent. -/
theorem pyInt_chain_ok (a b : PyVal) (ha : numericOrAbsent a = true)
    (hb : numericOrAbsent b = true) :
    ∃ n, pyInt (pyOr a (pyOr b (.vint 0))) = .ok n := by
  by_cases h : truthy a = true
  · obtain ⟨n, hn⟩ := pyInt_ok_of_numeric a ha h
    exact ⟨n, by simp [pyOr, h, hn]⟩
  · have h' : truthy a = false := by simpa using h
    by_cases h2 : truthy b = true
    · obtain ⟨n, hn⟩ := pyInt_ok_of_numeric b hb h2
      exact ⟨n, by simp [pyOr, h', h2, hn]⟩
    · have h2' : truthy b = false := by simpa using h2
      exact ⟨0, by simp [pyOr, h', h2', pyInt]⟩

/-- A `float(a or b or 0)` alias chain cannot raise when both alias values
are numbers or absent. -/
theorem pyFloat_chain_ok (a b : PyVal) (ha : numericOrAbsent a = true)
    (hb : numericOrAbsent b = true) :
    ∃ q, pyFloat (pyOr a (pyOr b (.vint 0))) = .ok q := by
  by_cases h : truthy a = true
  · obtain ⟨q, hq⟩ := pyFloat_ok_of_numeric a ha h
    exact ⟨q, by simp [pyOr, h, hq]⟩
  · have h' : truthy a = false := by simpa using h
    by_cases h2 : truthy b = true
    · obtain ⟨q, hq⟩ := pyFloat_ok_of_numeric b hb h2
      exact ⟨q, by simp [pyOr, h', h2, hq]⟩
    · have h2' : truthy b = false := by simpa using h2
      exact ⟨0, by simp [pyOr, h', h2', pyFloat]⟩

/-- Inverting one `Except` bind. -/
theorem except_bind_ok {ε α β : Type} (ma : Except ε α) (f : α → Except ε β) (b : β)
    (h : Except.bind ma f = .ok b) : ∃ a, ma = .ok a ∧ f a = .ok b := by
  cases ma with
  | error e => simp [Except.bind] at h
  | ok a => exact ⟨a, rfl, h⟩

/-! ### Theorems for the normalizers -/

/-- C4 counterexample:  The claim says the Normalizer never raises,
however malformed the input's values.  `FilePreprocessor._normalize_policy`
applies `int(...)` to the first truthy alias value, and on a record whose
`targetAgeMin` is the non-numeric string `"abc"` this raises `ValueError`
(nothing in `preprocess_policy` catches it). -/
theorem c4_counterexample :
    normalize_policy (.vdict [("targetAgeMin", .vstr "abc")]) =
      .error "invalid literal for int with base 10: abc" := by
  rfl

/-- C4 amended:  For any input mapping however sparse — every
numeric-field alias (`targetAgeMin`, `sprtTrgtMinAge`, `targetAgeMax`,
`sprtTrgtMaxAge`, `benefitAmount`, `bnftAmt`) absent or bound to an actual
number — the Normalizer succeeds and returns a canonical record with every
required field populated; but a present non-numeric value in a numeric
field makes it raise (see the counterexample), so totality does not extend
to arbitrarily malformed values. -/
theorem c4_normalizer_totality (p : List (String × PyVal))
    (h1 : numericOrAbsent (dget p "targetAgeMin") = true)
    (h2 : numericOrAbsent (dget p "sprtTrgtMinAge") = true)
    (h3 : numericOrAbsent (dget p "targetAgeMax") = true)
    (h4 : numericOrAbsent (dget p "sprtTrgtMaxAge") = true)
    (h5 : numericOrAbsent (dget p "benefitAmount") = true)
    (h6 : numericOrAbsent (dget p "bnftAmt") = true) :
    ∃ r, normalize_policy (.vdict p) = .ok r := by
  obtain ⟨n1, hn1⟩ := pyInt_chain_ok _ _ h1 h2
  obtain ⟨n2, hn2⟩ := pyInt_chain_ok _ _ h3 h4
  obtain ⟨q, hq⟩ := pyFloat_chain_ok _ _ h5 h6
  simp [normalize_policy, asDict, hn1, hn2, hq, Except.bind, bind]

/-- C4 witness:  A sparse input with only a policy name still yields a
fully populated record. -/
theorem c4_witness :
    ∃ r, normalize_policy (.vdict [("policyName", PyVal.vstr "정책명")]) = .ok r :=
  c4_normalizer_totality [("policyName", PyVal.vstr "정책명")] rfl rfl rfl rfl rfl rfl

/-- C5:  A raw policy record carrying neither `targetAgeMin` /
`targetAgeMax` nor their `sprtTrgtMinAge` / `sprtTrgtMaxAge` aliases
normalizes (when it normalizes at all) to the age range `[0, 0]`, and the
inclusive-range filter of `get_youth_policies` then rejects a user aged
25. -/
theorem c5_no_age_fields (p : List (String × PyVal)) (r : MockPolicy)
    (h1 : containsKey p "targetAgeMin" = false)
    (h2 : containsKey p "sprtTrgtMinAge" = false)
    (h3 : containsKey p "targetAgeMax" = false)
    (h4 : containsKey p "sprtTrgtMaxAge" = false)
    (hok : mds_normalize_policy (.vdict p) = .ok r) :
    r.targetAgeMin = 0 ∧ r.targetAgeMax = 0 ∧
      get_youth_policies [r] (some 25) = [] := by
  have e1 := dget_eq_none_of_not_containsKey p "targetAgeMin" h1
  have e2 := dget_eq_none_of_not_containsKey p "sprtTrgtMinAge" h2
  have e3 := dget_eq_none_of_not_containsKey p "targetAgeMax" h3
  have e4 := dget_eq_none_of_not_containsKey p "sprtTrgtMaxAge" h4
  have hmin : pyInt (pyOr (dget p "targetAgeMin")
      (pyOr (dget p "sprtTrgtMinAge") (.vint 0))) = .ok 0 := by
    simp [e1, e2, pyOr, truthy, pyInt]
  have hmax : pyInt (pyOr (dget p "targetAgeMax")
      (pyOr (dget p "sprtTrgtMaxAge") (.vint 0))) = .ok 0 := by
    simp [e3, e4, pyOr, truthy, pyInt]
  simp only [mds_normalize_policy, asDict, Except.bind, bind, hmin, hmax] at hok
  obtain ⟨q, hq, hok⟩ := except_bind_ok _ _ _ hok
  obtain ⟨rfl⟩ : { policyId := pyOr (dget p "policyId") (pyOr (dget p "plcyNo") (dgetD p "id" (.vstr "YOUTH_UNKNOWN")))
                   policyName := pyOr (dget p "policyName") (pyOr (dget p "plcyNm") (dgetD p "name" (.vstr "정책")))
                   targetAgeMin := 0
                   targetAgeMax := 0
                   benefitAmount := q
                   requirements := pyOr (dget p "requirements") (pyOr (dget p "addAplyQlfcCndCn") (.vstr ""))
                   applicationPeriod := pyOr (dget p "applicationPeriod") (pyOr (dget p "aplyYmd") (.vstr ""))
                   policyType := pyOr (dget p "policyType") (pyOr (dget p "lclsfNm") (.vstr ""))
                   description := pyOr (dget p "description") (pyOr (dget p "plcyExplnCn") (.vstr "")) } = r := by
    simpa using hok
  refine ⟨rfl, rfl, ?_⟩
  simp [get_youth_policies]

/-- C5 witness:  The empty record normalizes to the `[0, 0]` range and
is rejected for a user aged 25. -/
theorem c5_witness :
    ({ policyId := PyVal.vstr "YOUTH_UNKNOWN", policyName := PyVal.vstr "정책"
       targetAgeMin := 0, targetAgeMax := 0, benefitAmount := 0
       requirements := PyVal.vstr "", applicationPeriod := PyVal.vstr ""
       policyType := PyVal.vstr "", description := PyVal.vstr "" } : MockPolicy).targetAgeMin = 0 ∧
    ({ policyId := PyVal.vstr "YOUTH_UNKNOWN", policyName := PyVal.vstr "정책"
       targetAgeMin := 0, targetAgeMax := 0, benefitAmount := 0
       requirements := PyVal.vstr "", applicationPeriod := PyVal.vstr ""
       policyType := PyVal.vstr "", description := PyVal.vstr "" } : MockPolicy).targetAgeMax = 0 ∧
    get_youth_policies
      [{ policyId := PyVal.vstr "YOUTH_UNKNOWN", policyName := PyVal.vstr "정책"
         targetAgeMin := 0, targetAgeMax := 0, benefitAmount := 0
         requirements := PyVal.vstr "", applicationPeriod := PyVal.vstr ""
         policyType := PyVal.vstr "", description := PyVal.vstr "" }] (some 25) = [] :=
  c5_no_age_fields [] _ rfl rfl rfl rfl rfl

/-- A bank-product payload whose `result` envelope holds only a
`youthPolicyList`. -/
def policyOnlyPayload (records : List PyVal) : PyVal :=
  .vdict [("result", .vdict [("youthPolicyList", .vlist records)])]

/-- C6 counterexample:  The claim says the bank-product loading path
returns an empty list on a policy-only payload.
`MockDataService._load_bank_products_from_json` does detect the policy list
(no candidate container passes the product-key probe), but then falls back
to the five built-in mock products — a non-empty list, not the empty
one. -/
theorem c6_counterexample :
    load_bank_products_from_json
        (policyOnlyPayload [.vdict [("plcyNo", .vstr "R2023-001"), ("plcyNm", .vstr "청년정책")]]) =
      mock_bank_products ∧
    mock_bank_products.length = 5 := by
  exact ⟨rfl, rfl⟩

/-- C6 amended:  On a payload whose `result` envelope holds only a
`youthPolicyList` (whatever its records), `FilePreprocessor.preprocess_bank`
detects the policy list and returns the empty list, while
`MockDataService._load_bank_products_from_json` detects it but substitutes
the five built-in mock products instead of an empty list. -/
theorem c6_policy_only_payload (records : List PyVal) :
    preprocess_bank (policyOnlyPayload records) 100 = .ok [] ∧
      load_bank_products_from_json (policyOnlyPayload records) = mock_bank_products := by
  constructor
  · rfl
  · cases records with
    | nil => rfl
    | cons r rest => rfl

/-- C7 counterexample:  The claim says a record with no risk-level
alias normalizes to `risk_level = 2`.  `FilePreprocessor._normalize_bank`
computes `int(p.get("riskLevel") or p.get("risk") or 1)`: on the empty
record the result is `1`, not `2`. -/
theorem c7_counterexample :
    (normalize_bank (.vdict [])).map (fun r => r.risk_level) = .ok 1 ∧
      (Except.ok (1 : Int) : Except String Int) ≠ .ok 2 := by
  exact ⟨rfl, by simp⟩

/-- C7 amended:  For a raw product record with no risk-level field
under any alias, the default risk level depends on the normalizer: the
loader of `MockDataService` leaves `riskLevel = 2`, while
`FilePreprocessor._normalize_bank` and `MSAClient._convert_bank_products`
(whenever they succeed on the record) set `risk_level = 1`. -/
theorem c7_risk_level_defaults (p : List (String × PyVal))
    (h1 : containsKey p "riskLevel" = false)
    (h2 : containsKey p "risk" = false) :
    (∃ m, mds_normalize_bank (.vdict p) = .ok m ∧ m.riskLevel = .vint 2) ∧
    (∀ r, normalize_bank (.vdict p) = .ok r → r.risk_level = 1) ∧
    (∀ c, convert_bank_product (.vdict p) = .ok c → c.risk_level = 1) := by
  have e1 := dget_eq_none_of_not_containsKey p "riskLevel" h1
  have e2 := dget_eq_none_of_not_containsKey p "risk" h2
  refine ⟨⟨_, rfl, ?_⟩, ?_, ?_⟩
  · simp [mds_normalize_bank, e1, e2, pyOr, truthy]
  · intro r hr
    have hrisk : pyInt (pyOr (dget p "riskLevel") (pyOr (dget p "risk") (.vint 1))) = .ok 1 := by
      simp [e1, e2, pyOr, truthy, pyInt]
    simp only [normalize_bank, asDict, Except.bind, bind] at hr
    obtain ⟨ir, hir, hr⟩ := except_bind_ok _ _ _ hr
    obtain ⟨mn, hmn, hr⟩ := except_bind_ok _ _ _ hr
    obtain ⟨mx, hmx, hr⟩ := except_bind_ok _ _ _ hr
    obtain ⟨tm, htm, hr⟩ := except_bind_ok _ _ _ hr
    obtain ⟨rl, hrl, hr⟩ := except_bind_ok _ _ _ hr
    rw [hrisk] at hrl
    injection hrl with hrl1
    subst hrl1
    rw [← Except.ok.inj hr]
  · intro c hc
    have hrisk : pyInt (dgetD p "riskLevel" (.vint 1)) = .ok 1 := by
      simp [dgetD, h1, pyInt]
    simp only [convert_bank_product, asDict, Except.bind, bind] at hc
    obtain ⟨ir, hir, hc⟩ := except_bind_ok _ _ _ hc
    obtain ⟨mn, hmn, hc⟩ := except_bind_ok _ _ _ hc
    obtain ⟨mx, hmx, hc⟩ := except_bind_ok _ _ _ hc
    obtain ⟨tm, htm, hc⟩ := except_bind_ok _ _ _ hc
    obtain ⟨rl, hrl, hc⟩ := except_bind_ok _ _ _ hc
    rw [hrisk] at hrl
    injection hrl with hrl1
    subst hrl1
    rw [← Except.ok.inj hc]

/-- C7 witness:  The empty record: mock loader yields `riskLevel = 2`,
the file preprocessor and the MSA converter yield `risk_level = 1`. -/
theorem c7_witness :
    (∃ m, mds_normalize_bank (.vdict []) = .ok m ∧ m.riskLevel = .vint 2) ∧
    (∀ r, normalize_bank (.vdict []) = .ok r → r.risk_level = 1) ∧
    (∀ c, convert_bank_product (.vdict []) = .ok c → c.risk_level = 1) :=
  c7_risk_level_defaults [] rfl rfl

/-- C9 counterexample:  The claim says a record whose `interestRate`
is present but `0` normalizes to the default rate `3.0`.  When another
truthy alias (here `rate`) is present, the chain resolves to that alias
instead: the result is `5.0`, not `3.0`. -/
theorem c9_counterexample :
    (mds_normalize_bank (.vdict [("interestRate", .vint 0), ("rate", .vfloat 5)])).map
        (fun m => m.interestRate) = .ok (.vfloat 5) ∧
      (Except.ok (PyVal.vfloat 5) : Except String PyVal) ≠ .ok (.vfloat 3) := by
  refine ⟨rfl, ?_⟩
  intro h
  have h5 : (5 : Rat) = 3 := by injection (Except.ok.inj h)
  norm_num at h5

/-- C9 amended:  For a raw product record whose `interestRate` field
is present but `0` and whose other rate aliases (`rate`, `yield`) are
absent or falsy, the normalized `interestRate` is the default `3.0` rather
than `0`: the first-present-alias resolution treats present-but-falsy
values the same as absent fields. -/
theorem c9_zero_rate_uses_default (p : List (String × PyVal))
    (h0 : dget p "interestRate" = .vint 0)
    (h1 : truthy (dget p "rate") = false)
    (h2 : truthy (dget p "yield") = false) :
    ∃ m, mds_normalize_bank (.vdict p) = .ok m ∧ m.interestRate = .vfloat 3 := by
  have h0' : truthy (dget p "interestRate") = false := by rw [h0]; rfl
  refine ⟨_, rfl, ?_⟩
  simp [mds_normalize_bank, pyOr, h0', h1, h2]

/-- C9 witness:  A record with only `interestRate = 0` normalizes to
rate `3.0`. -/
theorem c9_witness :
    ∃ m, mds_normalize_bank (.vdict [("interestRate", PyVal.vint 0)]) = .ok m ∧
      m.interestRate = .vfloat 3 :=
  c9_zero_rate_uses_default [("interestRate", PyVal.vint 0)] rfl rfl rfl

/-- C10:  `get_youth_policies` filters only under `if age:`; an age of
`0` is falsy, so an age-0 request skips the range test and returns every
policy — and the mock-mode gateway path then converts that full list. -/
theorem c10_age_zero_no_filter (policies : List MockPolicy) :
    get_youth_policies policies (some 0) = policies ∧
      msa_get_youth_policies policies (some 0) =
        (policies.map MockPolicy.toDict).mapM convert_youth_policy := by
  exact ⟨rfl, rfl⟩

/-! ### Theorems for the portfolio analyzer -/

/-- The analyzer loop accumulates exactly the per-item contributions of the
items whose product resolves. -/
theorem analyzeLoop_spec (lookup : Int → Option DbBankProduct)
    (items : List DbPortfolioItem) (tr rs : Rat) (sa : List (String × Rat)) :
    (analyzeLoop lookup items tr rs sa).1 =
      tr + (items.filterMap (fun it => (lookup it.bank_product_id).map
        (fun pr => pr.interest_rate / 100 * it.investment_amount))).sum ∧
    (analyzeLoop lookup items tr rs sa).2.1 =
      rs + (items.filterMap (fun it => (lookup it.bank_product_id).map
        (fun pr => pr.risk_level * it.allocation_percentage / 100))).sum := by
  induction items generalizing tr rs sa with
  | nil => simp [analyzeLoop]
  | cons item rest ih =>
    cases h : lookup item.bank_product_id with
    | none => simp [analyzeLoop, h, ih]
    | some pr =>
      simp [analyzeLoop, h, ih]
      constructor <;> ring

/-- C8:  In the analyzer, every item whose product does not resolve is
excluded from the `total_return` and `risk_score` aggregations, yet its
`investment_amount` still counts toward `total_value`: `total_value` sums
over all items while the other two aggregate only over items whose lookup
succeeds. -/
theorem c8_unresolved_items_skipped (items : List DbPortfolioItem)
    (lookup : Int → Option DbBankProduct) (h : items ≠ []) :
    ∃ a, analyze_user_portfolio items lookup = .ok a ∧
      a.total_value = (items.map (fun it => it.investment_amount)).sum ∧
      a.total_return = (items.filterMap (fun it => (lookup it.bank_product_id).map
        (fun pr => pr.interest_rate / 100 * it.investment_amount))).sum ∧
      a.risk_score = (items.filterMap (fun it => (lookup it.bank_product_id).map
        (fun pr => pr.risk_level * it.allocation_percentage / 100))).sum := by
  have hspec := analyzeLoop_spec lookup items 0 0 []
  cases items with
  | nil => exact absurd rfl h
  | cons item rest =>
    refine ⟨_, rfl, rfl, ?_, ?_⟩
    · simpa using hspec.1
    · simpa using hspec.2

/-- An allocation item whose product resolves, for the C8 witness. -/
def c8item1 : DbPortfolioItem :=
  { bank_product_id := 1, investment_amount := 5000000, allocation_percentage := 50 }

/-- An allocation item whose product does not resolve, for the C8 witness. -/
def c8item2 : DbPortfolioItem :=
  { bank_product_id := 2, investment_amount := 5000000, allocation_percentage := 50 }

/-- A product lookup resolving only id 1, for the C8 witness. -/
def c8lookup : Int → Option DbBankProduct := fun i =>
  if i = 1 then some { interest_rate := 4, risk_level := 2, product_type := "DEPOSIT" }
  else Option.none

/-- C8 witness:  A two-item portfolio where only the first product
resolves: the unresolved item still counts toward `total_value` but not
toward the return/risk sums. -/
theorem c8_witness :
    ∃ a, analyze_user_portfolio [c8item1, c8item2] c8lookup = .ok a ∧
      a.total_value = ([c8item1, c8item2].map (fun it => it.investment_amount)).sum ∧
      a.total_return = ([c8item1, c8item2].filterMap (fun it => (c8lookup it.bank_product_id).map
        (fun pr => pr.interest_rate / 100 * it.investment_amount))).sum ∧
      a.risk_score = ([c8item1, c8item2].filterMap (fun it => (c8lookup it.bank_product_id).map
        (fun pr => pr.risk_level * it.allocation_percentage / 100))).sum :=
  c8_unresolved_items_skipped [c8item1, c8item2] c8lookup (by simp)

end LLMTest
